import Mathlib

/-!
Verification development for the BioAPI repository (`app.py`).

The program is a small web service with two operations:

* `search` (`/search`): given a protein identifier, fetch the UniProt JSON
  record, normalize it into a fixed-shape result document (overview,
  sequence, structure, links, activity, localization, modifications,
  domains_sites, keywords, references), optionally fetching one PDB
  structure file, and return it; extraction errors become a 500-class
  response, a missing identifier a 400, an upstream miss a 404.
* `autocomplete` (`/autocomplete`): free-text search returning up to five
  `{id, name}` entries; upstream failure yields an empty list.

The embedding models JSON values as `JVal`, Python dictionary access with
its exact exception behavior (`d.get` raises `AttributeError` on
non-dicts, `d[k]` raises `KeyError`/`TypeError`, `safe_get` never raises),
Python truthiness and iteration, and the outbound HTTP calls as an oracle
`String → HttpResp`; each route returns its outcome together with the list
of outbound request URLs it issued, in order.
-/

namespace BioAPI

/-- A JSON value as produced by `response.json()`: Python `None`, `bool`,
`int`, `str`, `list`, `dict` (fields in document order). -/
inductive JVal where
  | null
  | boolean (b : Bool)
  | num (n : Int)
  | str (s : String)
  | arr (xs : List JVal)
  | obj (fs : List (String × JVal))

/-- First-match association lookup, the embedding of Python dict lookup
(JSON objects bind each key once). -/
def lookupJ : List (String × JVal) → String → Option JVal
  | [], _ => none
  | (k, v) :: rest, key => if k = key then some v else lookupJ rest key

/-- `safe_get(d, key, default)` from `app.py` line 6: returns
`d.get(key, default)` when `d` is a dict and `default` otherwise; it never
raises. Python's omitted-default call `safe_get(d, k)` is written
`safe_get d k .null` here. -/
def safe_get (d : JVal) (key : String) (default : JVal) : JVal :=
  match d with
  | .obj fs => (lookupJ fs key).getD default
  | _ => default

/-- Python `d.get(key, default)`: defaults when the key is absent, but
raises `AttributeError` when `d` is not a dict (e.g. `None`). -/
def dictGet (d : JVal) (key : String) (default : JVal) : Except String JVal :=
  match d with
  | .obj fs => .ok ((lookupJ fs key).getD default)
  | _ => .error ("AttributeError: no attribute get for key " ++ key)

/-- Python `d[key]` on a string key: raises `KeyError` when the key is
absent and `TypeError` when `d` is not a dict. -/
def jIndex (d : JVal) (key : String) : Except String JVal :=
  match d with
  | .obj fs =>
    match lookupJ fs key with
    | some v => .ok v
    | none => .error ("KeyError: " ++ key)
  | _ => .error ("TypeError: value not subscriptable at key " ++ key)

/-- Python truthiness of a JSON value. -/
def truthy : JVal → Bool
  | .null => false
  | .boolean b => b
  | .num n => n != 0
  | .str s => s ≠ ""
  | .arr xs => !xs.isEmpty
  | .obj fs => !fs.isEmpty

/-- Python `v == "s"` for a string literal: true exactly when `v` is that
string (comparison of a non-string against a string is `False`). -/
def jStrEq (v : JVal) (s : String) : Bool :=
  match v with
  | .str t => t = s
  | _ => false

/-- Whether a value is a dict (`isinstance(v, dict)`). -/
def isObj : JVal → Bool
  | .obj _ => true
  | _ => false

/-- Python `key in d` for a dict (the only shape on which the source uses
it: the receiver has already answered a `.get`). -/
def hasKey (d : JVal) (key : String) : Bool :=
  match d with
  | .obj fs => (lookupJ fs key).isSome
  | _ => false

/-- Python iteration `for x in v`: lists yield elements, dicts their keys,
strings their characters; `None`/numbers/booleans raise `TypeError`. -/
def pyIter : JVal → Except String (List JVal)
  | .arr xs => .ok xs
  | .obj fs => .ok (fs.map (fun p => .str p.1))
  | .str s => .ok (s.toList.map (fun c => .str c.toString))
  | _ => .error "TypeError: value not iterable"

mutual

/-- Python `repr` of a JSON value (used inside containers by `str`). -/
def pyRepr : JVal → String
  | .null => "None"
  | .boolean b => if b then "True" else "False"
  | .num n => toString n
  | .str s => "'" ++ s ++ "'"
  | .arr xs => "[" ++ pyReprList xs ++ "]"
  | .obj fs => "\x7b" ++ pyReprFields fs ++ "\x7d"

def pyReprList : List JVal → String
  | [] => ""
  | [x] => pyRepr x
  | x :: y :: rest => pyRepr x ++ ", " ++ pyReprList (y :: rest)

def pyReprFields : List (String × JVal) → String
  | [] => ""
  | [(k, v)] => "'" ++ k ++ "': " ++ pyRepr v
  | (k, v) :: p :: rest => "'" ++ k ++ "': " ++ pyRepr v ++ ", " ++ pyReprFields (p :: rest)

end

/-- Python `str()` of a JSON value, as interpolated by an f-string:
top-level strings are unquoted, `None` prints `None`. -/
def pyStr : JVal → String
  | .str s => s
  | v => pyRepr v

/-- `pat` matches at the head of the character list. -/
def patAt : List Char → List Char → Bool
  | [], _ => true
  | _ :: _, [] => false
  | p :: ps, c :: cs => p = c && patAt ps cs

/-- Substring test, for reasoning about generated URLs. -/
def hasSub (pat : List Char) : List Char → Bool
  | [] => pat.isEmpty
  | c :: rest => patAt pat (c :: rest) || hasSub pat rest

/-- The characters of the `\x7bid\x7d` replacement field. -/
def fieldId : List Char := ['\x7b', 'i', 'd', '\x7d']

/-- The characters of the `\x7bprotein_id\x7d` replacement field. -/
def fieldPid : List Char :=
  ['\x7b', 'p', 'r', 'o', 't', 'e', 'i', 'n', '_', 'i', 'd', '\x7d']

/-- One left-to-right scan of a format string, substituting each `id` /
`protein_id` replacement field and never rescanning substituted text,
as Python `str.format` does. The fuel argument only bounds the recursion;
with fuel ≥ length the scan always completes. -/
def pyFormatAux (idv pidv : List Char) : Nat → List Char → List Char
  | 0, s => s
  | fuel + 1, s =>
    match s with
    | [] => []
    | c :: rest =>
      if patAt fieldId (c :: rest) then
        idv ++ pyFormatAux idv pidv fuel (List.drop fieldId.length (c :: rest))
      else if patAt fieldPid (c :: rest) then
        pidv ++ pyFormatAux idv pidv fuel (List.drop fieldPid.length (c :: rest))
      else c :: pyFormatAux idv pidv fuel rest

/-- `template.format(id=_id, protein_id=protein_id)` for the templates of
`url_templates` (each uses a subset of the two named fields). -/
def pyFormat (t idv pidv : String) : String :=
  String.mk (pyFormatAux idv.toList pidv.toList t.length t.toList)

/-- An outbound HTTP response: status code, parsed JSON body (for
`.json()`), raw text (for `.text`). -/
structure HttpResp where
  status : Nat
  body : JVal
  text : String

/-- The `overview` sub-mapping built at lines 29–67. -/
structure Overview where
  accession : JVal
  recommended_name : JVal
  alternative_names : List JVal
  gene_names : List JVal
  organism : JVal
  protein_existence : JVal
  entry_version : JVal
  sequence_version : JVal
  function : List JVal

/-- One entry of `cross_links` (lines 94–98). -/
structure CrossLink where
  db : JVal
  id : JVal
  url : String

/-- The `activity` panel (lines 102–110). -/
structure Activity where
  catalytic_activity : List JVal
  regulation : List JVal

/-- The `structure` panel (line 148). -/
structure StructurePanel where
  pdb_ids : List JVal
  pdb_text : Option String

/-- The fixed-shape response document of lines 145–156. -/
structure NormalizedResult where
  overview : Overview
  sequence : JVal
  «structure» : StructurePanel
  links : List CrossLink
  activity : Activity
  localization : List JVal
  modifications : List String
  domains_sites : List String
  keywords : List JVal
  references : List String

/-- Lines 32–40: the recommended-name chain
`safe_get(safe_get(safe_get(data,'proteinDescription',{}),'recommendedName',{}),'fullName',{}).get('value','N/A')`.
The three `safe_get` steps never raise; the final `.get` does when the
`fullName` slot holds a non-dict. -/
def recommendedNameOf (data : JVal) : Except String JVal :=
  dictGet
    (safe_get (safe_get (safe_get data "proteinDescription" (.obj []))
        "recommendedName" (.obj []))
      "fullName" (.obj []))
    "value" (.str "N/A")

/-- Lines 41–45: the alternative-names comprehension over the already
iterated `alternativeNames` list. -/
def altNamesFrom : List JVal → Except String (List JVal)
  | [] => .ok []
  | alt :: rest =>
    if isObj (safe_get alt "fullName" .null) then do
      let v ← dictGet (safe_get alt "fullName" (.obj [])) "value" (.str "N/A")
      let tl ← altNamesFrom rest
      .ok (v :: tl)
    else altNamesFrom rest

/-- Lines 50–51: a gene entry's own name, appended only under the
truthiness guard on `safe_get(gene, 'geneName')`; inside the guard the
raw `gene['geneName']` index is used. -/
def geneOwn (gene : JVal) : Except String (List JVal) :=
  if truthy (safe_get gene "geneName" .null) then do
    let gn ← jIndex gene "geneName"
    .ok [safe_get gn "value" (.str "N/A")]
  else .ok []

/-- Lines 48–53: gene names and synonyms. For each gene entry: the gene's
own name first, then every synonym's value; `gene.get('synonyms', [])`
raises on a non-dict gene entry. -/
def geneNamesFrom : List JVal → Except String (List JVal)
  | [] => .ok []
  | gene :: rest => do
    let own ← geneOwn gene
    let synsRaw ← dictGet gene "synonyms" (.arr [])
    let syns ← pyIter synsRaw
    let tl ← geneNamesFrom rest
    .ok (own ++ syns.map (fun syn => safe_get syn "value" (.str "N/A")) ++ tl)

/-- Lines 62–66: values of the texts of every `FUNCTION` comment. -/
def functionFrom : List JVal → Except String (List JVal)
  | [] => .ok []
  | comment :: rest => do
    let ct ← dictGet comment "commentType" .null
    let here ←
      if jStrEq ct "FUNCTION" then do
        let txtsRaw ← dictGet comment "texts" (.arr [])
        let txts ← pyIter txtsRaw
        .ok (txts.map (fun txt => safe_get txt "value" (.str "N/A")))
      else .ok []
    let tl ← functionFrom rest
    .ok (here ++ tl)

/-- Line 72: `[xref['id'] for xref in ... if xref.get('database') == 'PDB']`;
the guard's `.get` raises on a non-dict entry and the body's `['id']`
raises when the key is absent. -/
def pdbIdsFrom : List JVal → Except String (List JVal)
  | [] => .ok []
  | xref :: rest => do
    let db ← dictGet xref "database" .null
    if jStrEq db "PDB" then do
      let i ← jIndex xref "id"
      let tl ← pdbIdsFrom rest
      .ok (i :: tl)
    else pdbIdsFrom rest

/-- Line 75: the RCSB download URL for one PDB id. -/
def pdbDownloadUrl (p : JVal) : String :=
  "https://files.rcsb.org/download/" ++ pyStr p ++ ".pdb"

/-- Lines 73–78: at most one structure-file download, for the first PDB id
only; a non-200 response leaves the text `none`. Returns the value
together with the fetch URLs issued. -/
def structureStep (pdb_ids : List JVal) (fetch : String → HttpResp) :
    Option String × List String :=
  match pdb_ids with
  | [] => (none, [])
  | p :: _ =>
    let resp := fetch (pdbDownloadUrl p)
    (if resp.status = 200 then some resp.text else none, [pdbDownloadUrl p])

/-- Lines 81–88: the URL-template allow-list, placeholders written as in
the source (`\x7b` and `\x7d` are `{` and `}`). -/
def url_templates : List (String × String) :=
  [("Ensembl", "https://www.ensembl.org/Homo_sapiens/Gene/Summary?g=\x7bid\x7d"),
   ("KEGG", "https://www.genome.jp/dbget-bin/www_bget?hsa:\x7bid\x7d"),
   ("Reactome", "https://reactome.org/PathwayBrowser/#/\x7bid\x7d"),
   ("GeneID", "https://www.ncbi.nlm.nih.gov/gene/\x7bid\x7d"),
   ("Pfam", "https://pfam.xfam.org/protein/\x7bid\x7d"),
   ("InterPro", "https://www.ebi.ac.uk/interpro/entry/UniProt/\x7bprotein_id\x7d")]

/-- `db in url_templates`: true only for a string key of the template
dict. -/
def templateFor (db : JVal) : Option String :=
  match db with
  | .str s => (url_templates.find? (fun p => p.1 = s)).map (·.2)
  | _ => none

/-- Lines 89–98: cross-link generation over the allow-list; both `.get`
accesses are defensive (`None` when absent) but raise on a non-dict
entry. -/
def crossLinksFrom (protein_id : String) : List JVal → Except String (List CrossLink)
  | [] => .ok []
  | xref :: rest => do
    let db ← dictGet xref "database" .null
    let i ← dictGet xref "id" .null
    match templateFor db with
    | some t => do
      let tl ← crossLinksFrom protein_id rest
      .ok ({ db := db, id := i, url := pyFormat t (pyStr i) protein_id } :: tl)
    | none => crossLinksFrom protein_id rest

/-- Lines 102–110: catalytic-activity names and regulation texts.
`comment.get('reaction', {})` then `rxn.get('name')` — the latter raises
when the `reaction` value is present but not a dict. -/
def activityFrom : List JVal → Except String (List JVal × List JVal)
  | [] => .ok ([], [])
  | comment :: rest => do
    let ct ← dictGet comment "commentType" .null
    if jStrEq ct "CATALYTIC ACTIVITY" then do
      let rxn ← dictGet comment "reaction" (.obj [])
      let nm ← dictGet rxn "name" .null
      let (ca, reg) ← activityFrom rest
      .ok (nm :: ca, reg)
    else if jStrEq ct "ACTIVITY REGULATION" then do
      let txtsRaw ← dictGet comment "texts" (.arr [])
      let txts ← pyIter txtsRaw
      let (ca, reg) ← activityFrom rest
      .ok (ca, txts.map (fun txt => safe_get txt "value" (.str "")) ++ reg)
    else activityFrom rest

/-- Lines 117–118: `loc['location']['value']` for each subcellular
location entry — raw indexing, no default. -/
def subcellValues : List JVal → Except String (List JVal)
  | [] => .ok []
  | loc :: rest => do
    let l ← jIndex loc "location"
    let v ← jIndex l "value"
    let tl ← subcellValues rest
    .ok (v :: tl)

/-- Lines 113–121: localization strings from `SUBCELLULAR LOCATION` and
`TISSUE SPECIFICITY` comments; the `subcellularLocations` branch indexes
without defaults, the `texts` branch defaults to the empty string. -/
def localizationFrom : List JVal → Except String (List JVal)
  | [] => .ok []
  | comment :: rest => do
    let ct ← dictGet comment "commentType" .null
    if jStrEq ct "SUBCELLULAR LOCATION" || jStrEq ct "TISSUE SPECIFICITY" then
      if hasKey comment "subcellularLocations" then do
        let locsRaw ← jIndex comment "subcellularLocations"
        let locs ← pyIter locsRaw
        let vals ← subcellValues locs
        let tl ← localizationFrom rest
        .ok (vals ++ tl)
      else do
        let txtsRaw ← dictGet comment "texts" (.arr [])
        let txts ← pyIter txtsRaw
        let tl ← localizationFrom rest
        .ok (txts.map (fun txt => safe_get txt "value" (.str "")) ++ tl)
    else localizationFrom rest

/-- Lines 124–131: modifications and domains/sites; position lookups are
raw `['location']['start']['value']` / `['end']['value']` indexing, the
description defaults to the empty string. -/
def featuresFrom : List JVal → Except String (List String × List String)
  | [] => .ok ([], [])
  | feat :: rest => do
    let t ← dictGet feat "type" .null
    if jStrEq t "Glycosylation" || jStrEq t "Disulfide bond" || jStrEq t "PTM" then do
      let loc ← jIndex feat "location"
      let st ← jIndex loc "start"
      let sv ← jIndex st "value"
      let (ms, ds) ← featuresFrom rest
      .ok ((pyStr t ++ " at " ++ pyStr sv) :: ms, ds)
    else if jStrEq t "Domain" || jStrEq t "Active site" || jStrEq t "Signal" ||
        jStrEq t "Propeptide" || jStrEq t "Chain" then do
      let desc ← dictGet feat "description" (.str "")
      let loc ← jIndex feat "location"
      let st ← jIndex loc "start"
      let sv ← jIndex st "value"
      let loc2 ← jIndex feat "location"
      let en ← jIndex loc2 "end"
      let ev ← jIndex en "value"
      let (ms, ds) ← featuresFrom rest
      .ok (ms, (pyStr t ++ ": " ++ pyStr desc ++ " (" ++ pyStr sv ++ "-" ++ pyStr ev ++ ")") :: ds)
    else featuresFrom rest

/-- Line 134: `[kw['name'] for kw in ...]` — raw indexing, no default. -/
def keywordsFrom : List JVal → Except String (List JVal)
  | [] => .ok []
  | kw :: rest => do
    let n ← jIndex kw "name"
    let tl ← keywordsFrom rest
    .ok (n :: tl)

/-- Line 141: the lazy generator
`next((cr['id'] for cr in ... if cr['database']=='PubMed'), None)` —
scans until the first PubMed entry, indexing without defaults. -/
def pubMedOf : List JVal → Except String (Option JVal)
  | [] => .ok none
  | cr :: rest => do
    let db ← jIndex cr "database"
    if jStrEq db "PubMed" then do
      let i ← jIndex cr "id"
      .ok (some i)
    else pubMedOf rest

/-- Lines 137–142: formatted citation strings. -/
def referencesFrom : List JVal → Except String (List String)
  | [] => .ok []
  | ref :: rest => do
    let cit ← dictGet ref "citation" (.obj [])
    let title ← dictGet cit "title" .null
    let crsRaw ← dictGet cit "citationCrossReferences" (.arr [])
    let crs ← pyIter crsRaw
    let pm ← pubMedOf crs
    let tl ← referencesFrom rest
    .ok ((pyStr title ++ " (PubMed:" ++ pyStr (pm.getD .null) ++ ")") :: tl)

/-- Lines 29–67 in source order: the `overview` sub-mapping. Every
`data.get(...)` raises on a non-dict `data`; iterations raise on
non-iterable values. -/
def overviewFrom (data : JVal) : Except String Overview := do
  let accession ← dictGet data "primaryAccession" .null
  let recommended_name ← recommendedNameOf data
  let pd ← dictGet data "proteinDescription" (.obj [])
  let alts ← pyIter (safe_get pd "alternativeNames" (.arr []))
  let alternative_names ← altNamesFrom alts
  let genesRaw ← dictGet data "genes" (.arr [])
  let genes ← pyIter genesRaw
  let gene_names ← geneNamesFrom genes
  let org ← dictGet data "organism" (.obj [])
  let organism := safe_get org "scientificName" (.str "N/A")
  let pe ← dictGet data "proteinExistence" (.obj [])
  let protein_existence := safe_get pe "value" .null
  let entry_version ← dictGet data "entryVersion" .null
  let seq0 ← dictGet data "sequence" (.obj [])
  let sequence_version := safe_get seq0 "version" .null
  let commentsRaw ← dictGet data "comments" (.arr [])
  let comments ← pyIter commentsRaw
  let function ← functionFrom comments
  .ok { accession := accession, recommended_name := recommended_name,
        alternative_names := alternative_names, gene_names := gene_names,
        organism := organism, protein_existence := protein_existence,
        entry_version := entry_version, sequence_version := sequence_version,
        function := function }

/-- Lines 29–72: everything evaluated before the structure-file fetch —
the overview, the sequence value, and the PDB id list. -/
def preStructure (data : JVal) : Except String (Overview × JVal × List JVal) := do
  let ov ← overviewFrom data
  let seq0 ← dictGet data "sequence" (.obj [])
  let sequence := safe_get seq0 "value" (.str "N/A")
  let xrefsRaw ← dictGet data "uniProtKBCrossReferences" (.arr [])
  let xrefs ← pyIter xrefsRaw
  let pdb_ids ← pdbIdsFrom xrefs
  .ok (ov, sequence, pdb_ids)

/-- Lines 81–142: everything evaluated after the structure-file fetch. -/
def postStructure (protein_id : String) (data : JVal) :
    Except String (List CrossLink × Activity × List JVal ×
      List String × List String × List JVal × List String) := do
  let xrefsRaw ← dictGet data "uniProtKBCrossReferences" (.arr [])
  let xrefs ← pyIter xrefsRaw
  let links ← crossLinksFrom protein_id xrefs
  let commentsRaw ← dictGet data "comments" (.arr [])
  let comments ← pyIter commentsRaw
  let (ca, reg) ← activityFrom comments
  let localization ← localizationFrom comments
  let featsRaw ← dictGet data "features" (.arr [])
  let feats ← pyIter featsRaw
  let (modifications, domains_sites) ← featuresFrom feats
  let kwsRaw ← dictGet data "keywords" (.arr [])
  let kws ← pyIter kwsRaw
  let keywords ← keywordsFrom kws
  let refsRaw ← dictGet data "references" (.arr [])
  let refs ← pyIter refsRaw
  let references ← referencesFrom refs
  .ok (links, { catalytic_activity := ca, regulation := reg }, localization,
       modifications, domains_sites, keywords, references)

/-- The whole `try` block of lines 28–156: normalize `data`, fetching at
most one structure file in between. Returns the `Except`-valued outcome
together with the outbound structure-fetch URLs issued (in order; empty
when the extraction fails before line 74 or no PDB id exists). -/
def searchExtract (protein_id : String) (data : JVal)
    (fetch : String → HttpResp) : Except String NormalizedResult × List String :=
  match preStructure data with
  | .error e => (.error e, [])
  | .ok (ov, sequence, pdb_ids) =>
    let (pdb_text, log) := structureStep pdb_ids fetch
    match postStructure protein_id data with
    | .error e => (.error e, log)
    | .ok (links, activity, localization, modifications, domains_sites,
           keywords, references) =>
      (.ok { overview := ov, sequence := sequence,
             «structure» := { pdb_ids := pdb_ids, pdb_text := pdb_text },
             links := links, activity := activity,
             localization := localization, modifications := modifications,
             domains_sites := domains_sites, keywords := keywords,
             references := references }, log)

/-- The four possible responses of the `/search` handler. -/
inductive SearchOutcome where
  | badRequest (msg : String)
  | notFound (msg : String)
  | serverError (msg : String)
  | ok (r : NormalizedResult)

/-- HTTP status attached to each outcome (`jsonify(...), 400/404/500` and
the default 200). -/
def SearchOutcome.statusCode : SearchOutcome → Nat
  | .badRequest _ => 400
  | .notFound _ => 404
  | .serverError _ => 500
  | .ok _ => 200

def uniprotUrl (protein_id : String) : String :=
  "https://rest.uniprot.org/uniprotkb/" ++ protein_id ++ ".json"

/-- The `/search` handler, lines 13–160. `form_query` is
`request.form.get("query")` (`none` when the field is absent); `fetch` is
the outbound HTTP oracle. Returns the response together with every
outbound URL requested, in order. -/
def search (form_query : Option String) (fetch : String → HttpResp) :
    SearchOutcome × List String :=
  let protein_id := form_query.getD ""
  if protein_id = "" then (.badRequest "No ID provided.", [])
  else
    let resp := fetch (uniprotUrl protein_id)
    if resp.status ≠ 200 then (.notFound "Protein not found.", [uniprotUrl protein_id])
    else
      match searchExtract protein_id resp.body fetch with
      | (.ok r, log) => (.ok r, uniprotUrl protein_id :: log)
      | (.error e, log) =>
        (.serverError ("Server error: " ++ e), uniprotUrl protein_id :: log)

/-- One autocomplete suggestion (lines 176–182). -/
structure AutocompleteEntry where
  id : JVal
  name : JVal

def autocompleteUrl (query : String) : String :=
  "https://rest.uniprot.org/uniprotkb/search?query=" ++ query ++
    "&fields=accession,protein_name&format=json&size=5"

/-- Lines 175–182: reduce each result item to `{id, name}` via plain
`.get` chains — defaults on absent keys, raises on a non-dict
intermediate value. -/
def autocompleteItems : List JVal → Except String (List AutocompleteEntry)
  | [] => .ok []
  | item :: rest => do
    let i ← dictGet item "primaryAccession" .null
    let pd ← dictGet item "proteinDescription" (.obj [])
    let rn ← dictGet pd "recommendedName" (.obj [])
    let fn ← dictGet rn "fullName" (.obj [])
    let nm ← dictGet fn "value" (.str "")
    let tl ← autocompleteItems rest
    .ok ({ id := i, name := nm } :: tl)

/-- The `/autocomplete` handler, lines 162–183. `q` is
`request.args.get("q")`; a non-200 upstream response is replaced by `{}`.
An uncaught exception in the item loop surfaces as `.error` (the route
has no handler for it). -/
def autocomplete (q : Option String) (fetch : String → HttpResp) :
    Except String (List AutocompleteEntry) × List String :=
  let query := q.getD ""
  let url := autocompleteUrl query
  let resp := fetch url
  let data := if resp.status = 200 then resp.body else .obj []
  (do
    let rsRaw ← dictGet data "results" (.arr [])
    let rs ← pyIter rsRaw
    autocompleteItems rs, [url])

/-- A fetch oracle whose every response is a 200 with an empty JSON
object body. -/
def fetchStub : String → HttpResp :=
  fun _ => { status := 200, body := .obj [], text := "PDBTEXT" }

/-- The ten optional top-level keys of §8's shape property. -/
def tenKeys : List String :=
  ["proteinDescription", "genes", "organism", "proteinExistence", "sequence",
   "comments", "uniProtKBCrossReferences", "features", "keywords", "references"]

/-- A fully-populated upstream record exercising every extraction branch:
recommended and alternative names, genes with synonyms, all five comment
types, PDB and allow-listed cross-references, modification and domain
features, keywords and a PubMed-backed reference. -/
def fullRecord : List (String × JVal) :=
  [("primaryAccession", .str "P69905"),
   ("proteinDescription", .obj
     [("recommendedName", .obj
        [("fullName", .obj [("value", .str "Hemoglobin subunit alpha")])]),
      ("alternativeNames", .arr
        [.obj [("fullName", .obj [("value", .str "Alpha-globin")])]])]),
   ("genes", .arr
     [.obj [("geneName", .obj [("value", .str "HBA1")]),
            ("synonyms", .arr [.obj [("value", .str "HBA-T1")]])]]),
   ("organism", .obj [("scientificName", .str "Homo sapiens")]),
   ("proteinExistence", .obj [("value", .str "1: Evidence at protein level")]),
   ("entryVersion", .num 250),
   ("sequence", .obj [("value", .str "MVLSPADKTN"), ("version", .num 2)]),
   ("comments", .arr
     [.obj [("commentType", .str "FUNCTION"),
            ("texts", .arr [.obj [("value", .str "Oxygen transport")]])],
      .obj [("commentType", .str "CATALYTIC ACTIVITY"),
            ("reaction", .obj [("name", .str "O2 binding")])],
      .obj [("commentType", .str "ACTIVITY REGULATION"),
            ("texts", .arr [.obj [("value", .str "Regulated by BPG")]])],
      .obj [("commentType", .str "SUBCELLULAR LOCATION"),
            ("subcellularLocations", .arr
              [.obj [("location", .obj [("value", .str "Cytoplasm")])]])],
      .obj [("commentType", .str "TISSUE SPECIFICITY"),
            ("texts", .arr [.obj [("value", .str "Red blood cells")]])]]),
   ("uniProtKBCrossReferences", .arr
     [.obj [("database", .str "PDB"), ("id", .str "1ABC")],
      .obj [("database", .str "InterPro"), ("id", .str "IPR000001")],
      .obj [("database", .str "Ensembl"), ("id", .str "ENSG00001")]]),
   ("features", .arr
     [.obj [("type", .str "Glycosylation"),
            ("location", .obj [("start", .obj [("value", .num 5)]),
                               ("end", .obj [("value", .num 5)])])],
      .obj [("type", .str "Domain"), ("description", .str "Globin"),
            ("location", .obj [("start", .obj [("value", .num 1)]),
                               ("end", .obj [("value", .num 140)])])]]),
   ("keywords", .arr [.obj [("name", .str "Oxygen transport")]]),
   ("references", .arr
     [.obj [("citation", .obj
        [("title", .str "Structure of haemoglobin"),
         ("citationCrossReferences", .arr
           [.obj [("database", .str "PubMed"), ("id", .str "13054692")]])])]])]

/-- Remove the listed top-level keys from a record. -/
def dropKeys (ks : List String) (fs : List (String × JVal)) : List (String × JVal) :=
  fs.filter (fun p => !(ks.contains p.1))

def isNull : JVal → Bool
  | .null => true
  | _ => false

def bimp (a b : Bool) : Bool := !a || b

/-- C1's checkable body on one key set: extraction of `fullRecord` with
the keys dropped succeeds, and each dropped key is reflected only as the
corresponding empty list / `"N/A"` / null in the output. -/
def c1check (ks : List String) : Bool :=
  match searchExtract "P69905" (.obj (dropKeys ks fullRecord)) fetchStub with
  | (.ok r, _) =>
    bimp (ks.contains "proteinDescription")
      (jStrEq r.overview.recommended_name "N/A" && r.overview.alternative_names.isEmpty) &&
    bimp (ks.contains "genes") r.overview.gene_names.isEmpty &&
    bimp (ks.contains "organism") (jStrEq r.overview.organism "N/A") &&
    bimp (ks.contains "proteinExistence") (isNull r.overview.protein_existence) &&
    bimp (ks.contains "sequence")
      (jStrEq r.sequence "N/A" && isNull r.overview.sequence_version) &&
    bimp (ks.contains "comments")
      (r.overview.function.isEmpty && r.activity.catalytic_activity.isEmpty &&
       r.activity.regulation.isEmpty && r.localization.isEmpty) &&
    bimp (ks.contains "uniProtKBCrossReferences")
      (r.«structure».pdb_ids.isEmpty && r.links.isEmpty && r.«structure».pdb_text.isNone) &&
    bimp (ks.contains "features") (r.modifications.isEmpty && r.domains_sites.isEmpty) &&
    bimp (ks.contains "keywords") r.keywords.isEmpty &&
    bimp (ks.contains "references") r.references.isEmpty
  | (.error _, _) => false

/-- A subset of `tenKeys` selected by ten booleans, in order. -/
def maskKeys (b1 b2 b3 b4 b5 b6 b7 b8 b9 b10 : Bool) : List String :=
  (if b1 then ["proteinDescription"] else []) ++
  (if b2 then ["genes"] else []) ++
  (if b3 then ["organism"] else []) ++
  (if b4 then ["proteinExistence"] else []) ++
  (if b5 then ["sequence"] else []) ++
  (if b6 then ["comments"] else []) ++
  (if b7 then ["uniProtKBCrossReferences"] else []) ++
  (if b8 then ["features"] else []) ++
  (if b9 then ["keywords"] else []) ++
  (if b10 then ["references"] else [])

/-- Whether an `Except` computation succeeded. -/
def isOkE : Except String α → Bool
  | .ok _ => true
  | .error _ => false

/-- A record whose recommended-name chain carries an explicit `null` in
the `fullName` slot (the innermost level of the 3-level chain). -/
def c3Record : JVal :=
  .obj [("proteinDescription",
    .obj [("recommendedName", .obj [("fullName", JVal.null)])])]

/-- A record with a `SUBCELLULAR LOCATION` comment whose
`subcellularLocations` entry lacks the `location`/`value` path. -/
def c2LocRecord : JVal :=
  .obj [("comments", .arr
    [.obj [("commentType", .str "SUBCELLULAR LOCATION"),
           ("subcellularLocations", .arr [.obj []])]])]

/-- A record whose only cross-reference has database `PDB` but no `id`. -/
def c10Record : JVal :=
  .obj [("uniProtKBCrossReferences", .arr [.obj [("database", .str "PDB")]])]

/-- A fetch oracle that always answers 404. -/
def fetch404 : String → HttpResp :=
  fun _ => { status := 404, body := .obj [], text := "" }

/-- A record whose only cross-reference is a PDB entry with an id. -/
def c4Record : JVal :=
  .obj [("uniProtKBCrossReferences", .arr
    [.obj [("database", .str "PDB"), ("id", .str "1ABC")]])]

/-! Helper lemmas about the format-string scanner, used to compute the
generated cross-link URLs symbolically. -/

theorem pyFormatAux_nil (idv pidv : List Char) (n : Nat) :
    pyFormatAux idv pidv n [] = [] := by
  cases n <;> rfl

theorem patAt_not_brace (c : Char) (l : List Char) (h : c ≠ '\x7b') :
    patAt fieldId (c :: l) = false ∧ patAt fieldPid (c :: l) = false := by
  constructor <;> simp [fieldId, fieldPid, patAt, Ne.symm h]

theorem pyFormatAux_skip (idv pidv : List Char) :
    ∀ pre : List Char, (∀ c ∈ pre, c ≠ '\x7b') → ∀ (n : Nat) (suf : List Char),
      pyFormatAux idv pidv (pre.length + n) (pre ++ suf) =
        pre ++ pyFormatAux idv pidv n suf := by
  intro pre
  induction pre with
  | nil => intro _ n suf; simp
  | cons c pre ih =>
    intro h n suf
    have hc := patAt_not_brace c (pre ++ suf) (h c (by simp))
    have hrec : (c :: pre).length + n = (pre.length + n) + 1 := by
      simp [Nat.add_right_comm]
    rw [hrec]
    simp only [pyFormatAux, List.cons_append, hc.1, hc.2, if_false, Bool.false_eq_true]
    rw [ih (fun d hd => h d (by simp [hd])) n suf]

theorem pyFormatAux_fieldId (idv pidv : List Char) (n : Nat) :
    pyFormatAux idv pidv (n + 1) fieldId = idv := by
  have step : pyFormatAux idv pidv (n + 1) fieldId = idv ++ pyFormatAux idv pidv n [] := rfl
  rw [step, pyFormatAux_nil, List.append_nil]

theorem pyFormatAux_fieldPid (idv pidv : List Char) (n : Nat) :
    pyFormatAux idv pidv (n + 1) fieldPid = pidv := by
  have step : pyFormatAux idv pidv (n + 1) fieldPid = pidv ++ pyFormatAux idv pidv n [] := rfl
  rw [step, pyFormatAux_nil, List.append_nil]

/-- A template that is a brace-free literal followed by the `id` field
formats to that literal followed by the id argument. -/
theorem pyFormat_id_template (t pre idv pidv : String)
    (hsplit : t.toList = pre.toList ++ fieldId)
    (hlen : t.length = pre.toList.length + fieldId.length)
    (hpre : ∀ c ∈ pre.toList, c ≠ '\x7b') :
    pyFormat t idv pidv = pre ++ idv := by
  unfold pyFormat
  rw [hsplit, hlen]
  rw [show (fieldId.length : Nat) = 3 + 1 from rfl]
  rw [pyFormatAux_skip idv.toList pidv.toList pre.toList hpre (3 + 1) fieldId]
  rw [pyFormatAux_fieldId idv.toList pidv.toList 3]
  rfl

/-- A template that is a brace-free literal followed by the `protein_id`
field formats to that literal followed by the protein-id argument. -/
theorem pyFormat_pid_template (t pre idv pidv : String)
    (hsplit : t.toList = pre.toList ++ fieldPid)
    (hlen : t.length = pre.toList.length + fieldPid.length)
    (hpre : ∀ c ∈ pre.toList, c ≠ '\x7b') :
    pyFormat t idv pidv = pre ++ pidv := by
  unfold pyFormat
  rw [hsplit, hlen]
  rw [show (fieldPid.length : Nat) = 11 + 1 from rfl]
  rw [pyFormatAux_skip idv.toList pidv.toList pre.toList hpre (11 + 1) fieldPid]
  rw [pyFormatAux_fieldPid idv.toList pidv.toList 11]
  rfl

set_option maxRecDepth 8192 in
/-- C1: removing any subset of the ten optional top-level keys
(`proteinDescription`, `genes`, `organism`, `proteinExistence`,
`sequence`, `comments`, `uniProtKBCrossReferences`, `features`,
`keywords`, `references`) from a fully-populated record leaves the
extraction succeeding, with each absent input reflected only as the
corresponding empty list, `"N/A"` sentinel, or null output value (first
conjunct, exhaustive over all 1024 subsets); and extraction succeeds on
every record in which all ten keys are absent, whatever else it contains
(second conjunct). The output key set is fixed by the `NormalizedResult`
structure itself: a successful extraction always carries every field. -/
theorem extraction_shape_invariant :
    (∀ b1 b2 b3 b4 b5 b6 b7 b8 b9 b10 : Bool,
       c1check (maskKeys b1 b2 b3 b4 b5 b6 b7 b8 b9 b10) = true) ∧
    (∀ (fs : List (String × JVal)) (pid : String) (fetch : String → HttpResp),
       (∀ k ∈ tenKeys, lookupJ fs k = none) →
       isOkE (searchExtract pid (.obj fs) fetch).1 = true) := by
  constructor
  · decide
  · intro fs pid fetch h
    have hpd := h "proteinDescription" (by simp [tenKeys])
    have hg := h "genes" (by simp [tenKeys])
    have ho := h "organism" (by simp [tenKeys])
    have hpe := h "proteinExistence" (by simp [tenKeys])
    have hsq := h "sequence" (by simp [tenKeys])
    have hc := h "comments" (by simp [tenKeys])
    have hx := h "uniProtKBCrossReferences" (by simp [tenKeys])
    have hf := h "features" (by simp [tenKeys])
    have hk := h "keywords" (by simp [tenKeys])
    have hr := h "references" (by simp [tenKeys])
    simp [searchExtract, preStructure, postStructure, overviewFrom, recommendedNameOf,
      dictGet, safe_get, lookupJ, Option.getD, hpd, hg, ho, hpe, hsq, hc, hx, hf, hk, hr,
      Bind.bind, Except.bind, pyIter, altNamesFrom, geneNamesFrom, functionFrom,
      pdbIdsFrom, structureStep, crossLinksFrom, activityFrom, localizationFrom,
      featuresFrom, keywordsFrom, referencesFrom, isOkE]

/-- C1 witness: a record with none of the ten keys (and an unrelated key
present) extracts successfully. -/
theorem extraction_shape_invariant_witness :
    isOkE (searchExtract "P1" (.obj [("primaryAccession", .str "X")]) fetchStub).1 = true :=
  extraction_shape_invariant.2 [("primaryAccession", .str "X")] "P1" fetchStub
    (by intro k hk; fin_cases hk <;> rfl)

/-- C2: once an identifier is supplied and the record fetch succeeds, the
`/search` request either answers 200 with the complete `NormalizedResult`
produced by the extraction, or — when the extraction raises — answers a
500-class response carrying the triggering error's description; there is
no third outcome, so no partial result is ever returned. The second
conjunct instantiates the fragile path: a `SUBCELLULAR LOCATION` comment
whose `subcellularLocations` entry lacks the `location`/`value` path
makes the whole extraction fail. -/
theorem search_error_contract :
    (∀ (pid : String) (fetch : String → HttpResp), pid ≠ "" →
      (fetch (uniprotUrl pid)).status = 200 →
      (∃ r, (searchExtract pid (fetch (uniprotUrl pid)).body fetch).1 = .ok r ∧
        search (some pid) fetch = (.ok r,
          uniprotUrl pid :: (searchExtract pid (fetch (uniprotUrl pid)).body fetch).2)) ∨
      (∃ e, (searchExtract pid (fetch (uniprotUrl pid)).body fetch).1 = .error e ∧
        search (some pid) fetch = (.serverError ("Server error: " ++ e),
          uniprotUrl pid :: (searchExtract pid (fetch (uniprotUrl pid)).body fetch).2) ∧
        (SearchOutcome.serverError ("Server error: " ++ e)).statusCode = 500)) ∧
    ((searchExtract "P1" c2LocRecord fetchStub).1 = .error "KeyError: location") := by
  constructor
  · intro pid fetch hpid h200
    have hs : search (some pid) fetch =
        (match searchExtract pid (fetch (uniprotUrl pid)).body fetch with
          | (.ok r, log) => (SearchOutcome.ok r, uniprotUrl pid :: log)
          | (.error e, log) =>
            (.serverError ("Server error: " ++ e), uniprotUrl pid :: log)) := by
      simp only [search, Option.getD_some]
      rw [if_neg hpid, if_neg (by simp [h200])]
    rcases hE : searchExtract pid (fetch (uniprotUrl pid)).body fetch with ⟨res, log⟩
    rcases res with e | r
    · right
      refine ⟨e, rfl, ?_, rfl⟩
      rw [hs, hE]
    · left
      refine ⟨r, rfl, ?_⟩
      rw [hs, hE]
  · rfl

/-- C2 witness: with a 200 oracle answering an empty record, the request
falls in one of the two contracted outcomes. -/
theorem search_error_contract_witness :
    (∃ r, (searchExtract "P1" (fetchStub (uniprotUrl "P1")).body fetchStub).1 = .ok r ∧
      search (some "P1") fetchStub = (.ok r,
        uniprotUrl "P1" :: (searchExtract "P1" (fetchStub (uniprotUrl "P1")).body fetchStub).2)) ∨
    (∃ e, (searchExtract "P1" (fetchStub (uniprotUrl "P1")).body fetchStub).1 = .error e ∧
      search (some "P1") fetchStub = (.serverError ("Server error: " ++ e),
        uniprotUrl "P1" :: (searchExtract "P1" (fetchStub (uniprotUrl "P1")).body fetchStub).2) ∧
      (SearchOutcome.serverError ("Server error: " ++ e)).statusCode = 500) :=
  search_error_contract.1 "P1" fetchStub (by decide) rfl

/-- C3 counterexample: a record whose `fullName` slot holds an explicit
`null` makes the whole extraction fail with an `AttributeError`, so the
claim that the defensive mapping-check applies at every level of the
3-level chain and that the extraction never fails on it is false. -/
theorem recommended_name_null_fullName_fails :
    (searchExtract "P1" c3Record fetchStub).1 =
      .error "AttributeError: no attribute get for key value" := rfl

/-- C3 amended: the first three lookups of the recommended-name chain are
defensive (`safe_get`), so an absent, null or non-mapping
`proteinDescription` or `recommendedName`, or an absent `fullName`,
funnels into an empty mapping and yields `"N/A"`; but the final `.get` is
raw, so whenever the chain's `fullName` position holds a non-mapping
value (e.g. an explicit null) the extraction fails. -/
theorem recommended_name_defensive_amended :
    ∀ data : JVal,
      (∀ fs, safe_get (safe_get (safe_get data "proteinDescription" (.obj []))
            "recommendedName" (.obj [])) "fullName" (.obj []) = .obj fs →
         recommendedNameOf data = .ok ((lookupJ fs "value").getD (.str "N/A"))) ∧
      (isObj (safe_get (safe_get (safe_get data "proteinDescription" (.obj []))
            "recommendedName" (.obj [])) "fullName" (.obj [])) = false →
         ∃ e, recommendedNameOf data = .error e) := by
  intro data
  constructor
  · intro fs h
    unfold recommendedNameOf
    rw [h]
    rfl
  · intro hobj
    rcases hc : safe_get (safe_get (safe_get data "proteinDescription" (.obj []))
        "recommendedName" (.obj [])) "fullName" (.obj []) with _ | b | n | s | xs | fs
    · exact ⟨_, by unfold recommendedNameOf; rw [hc]; rfl⟩
    · exact ⟨_, by unfold recommendedNameOf; rw [hc]; rfl⟩
    · exact ⟨_, by unfold recommendedNameOf; rw [hc]; rfl⟩
    · exact ⟨_, by unfold recommendedNameOf; rw [hc]; rfl⟩
    · exact ⟨_, by unfold recommendedNameOf; rw [hc]; rfl⟩
    · rw [hc] at hobj; exact absurd hobj (by simp [isObj])

/-- C3 witness: null at the outer two levels yields `"N/A"`; a complete
chain yields the value; null at the `fullName` level errors. -/
theorem recommended_name_defensive_amended_witness :
    (recommendedNameOf (.obj [("proteinDescription", JVal.null)]) = .ok (.str "N/A")) ∧
    (recommendedNameOf (.obj [("proteinDescription",
        .obj [("recommendedName", JVal.null)])]) = .ok (.str "N/A")) ∧
    (recommendedNameOf (.obj [("proteinDescription",
        .obj [("recommendedName", .obj [("fullName",
          .obj [("value", .str "Hb")])])])]) = .ok (.str "Hb")) ∧
    (∃ e, recommendedNameOf c3Record = .error e) :=
  ⟨(recommended_name_defensive_amended _).1 [] rfl,
   (recommended_name_defensive_amended _).1 [] rfl,
   (recommended_name_defensive_amended _).1 [("value", .str "Hb")] rfl,
   (recommended_name_defensive_amended _).2 rfl⟩

/-- C4: one extraction run issues at most one structure-file fetch; when
it returns a result, an empty PDB list means no fetch was issued and a
null structure text, and a non-empty list means exactly one fetch for the
first id in list order, whose non-success leaves the text null (and whose
success stores the body). -/
theorem structure_fetch_at_most_once :
    ∀ (pid : String) (data : JVal) (fetch : String → HttpResp),
      (searchExtract pid data fetch).2.length ≤ 1 ∧
      (∀ (r : NormalizedResult) (log : List String),
        searchExtract pid data fetch = (.ok r, log) →
        (r.«structure».pdb_ids = [] → log = [] ∧ r.«structure».pdb_text = none) ∧
        (∀ (p : JVal) (ps : List JVal), r.«structure».pdb_ids = p :: ps →
          log = [pdbDownloadUrl p] ∧
          ((fetch (pdbDownloadUrl p)).status = 200 →
            r.«structure».pdb_text = some (fetch (pdbDownloadUrl p)).text) ∧
          ((fetch (pdbDownloadUrl p)).status ≠ 200 →
            r.«structure».pdb_text = none))) := by
  intro pid data fetch
  unfold searchExtract
  rcases hpre : preStructure data with e | ⟨ov, seq, ids⟩
  · constructor
    · simp
    · intro r log hr
      simp at hr
  · rcases ids with _ | ⟨p, ps⟩
    · rcases hpost : postStructure pid data with e2 |
        ⟨links, act, loc, mods, doms, kws, refs⟩
      · constructor
        · simp [structureStep]
        · intro r log hr
          simp [structureStep] at hr
      · constructor
        · simp [structureStep]
        · intro r log hr
          simp [structureStep] at hr
          obtain ⟨hr1, hr2⟩ := hr
          constructor
          · intro _
            subst hr1
            exact ⟨hr2, rfl⟩
          · intro q qs hq
            subst hr1
            simp at hq
    · rcases hpost : postStructure pid data with e2 |
        ⟨links, act, loc, mods, doms, kws, refs⟩
      · constructor
        · simp [structureStep]
        · intro r log hr
          simp [structureStep] at hr
      · constructor
        · simp [structureStep]
        · intro r log hr
          simp [structureStep] at hr
          obtain ⟨hr1, hr2⟩ := hr
          constructor
          · intro hnil
            subst hr1
            simp at hnil
          · intro q qs hq
            subst hr1
            simp at hq
            obtain ⟨hq1, hq2⟩ := hq
            subst hq1
            refine ⟨hr2.symm, ?_, ?_⟩
            · intro h200
              simp [h200]
            · intro hn200
              simp [if_neg hn200]

/-- C4 witness: one PDB cross-reference and a 404 oracle yield exactly
one fetch of the first id's URL and a null structure text. -/
theorem structure_fetch_at_most_once_witness :
    ∃ (r : NormalizedResult) (log : List String),
      searchExtract "P1" c4Record fetch404 = (.ok r, log) ∧
      log = [pdbDownloadUrl (.str "1ABC")] ∧ r.«structure».pdb_text = none := by
  have h := structure_fetch_at_most_once "P1" c4Record fetch404
  refine ⟨_, _, rfl, ?_, ?_⟩
  · exact ((h.2 _ _ rfl).2 (.str "1ABC") [] rfl).1
  · exact ((h.2 _ _ rfl).2 (.str "1ABC") [] rfl).2.2 (by decide)

/-- C5 counterexample: for the cross-reference
`{database: InterPro, id: IPR000001}` and query identifier `P12345`, the
generated URL is the InterPro template with the query identifier
substituted, and the cross-reference id appears nowhere in it — there is
no second placeholder, so the §4.1 branch of the claim is false. -/
theorem interpro_url_id_not_substituted :
    (crossLinksFrom "P12345"
        [.obj [("database", .str "InterPro"), ("id", .str "IPR000001")]] =
      .ok [{ db := .str "InterPro", id := .str "IPR000001",
             url := "https://www.ebi.ac.uk/interpro/entry/UniProt/P12345" }]) ∧
    hasSub "IPR000001".toList
        "https://www.ebi.ac.uk/interpro/entry/UniProt/P12345".toList = false :=
  ⟨rfl, rfl⟩

/-- C5 amended: an InterPro cross-reference produces the InterPro
template with only the query identifier substituted (the cross-reference
id does not enter the URL at all); each of the other five allow-listed
databases produces its template with the cross-reference id
substituted. -/
theorem cross_link_url_generation :
    ∀ (pid : String) (idv : JVal) (rest : List JVal) (tl : List CrossLink),
      crossLinksFrom pid rest = .ok tl →
      (crossLinksFrom pid (.obj [("database", .str "InterPro"), ("id", idv)] :: rest) =
        .ok ({ db := .str "InterPro", id := idv,
               url := "https://www.ebi.ac.uk/interpro/entry/UniProt/" ++ pid } :: tl)) ∧
      (crossLinksFrom pid (.obj [("database", .str "Ensembl"), ("id", idv)] :: rest) =
        .ok ({ db := .str "Ensembl", id := idv,
               url := "https://www.ensembl.org/Homo_sapiens/Gene/Summary?g=" ++ pyStr idv } :: tl)) ∧
      (crossLinksFrom pid (.obj [("database", .str "KEGG"), ("id", idv)] :: rest) =
        .ok ({ db := .str "KEGG", id := idv,
               url := "https://www.genome.jp/dbget-bin/www_bget?hsa:" ++ pyStr idv } :: tl)) ∧
      (crossLinksFrom pid (.obj [("database", .str "Reactome"), ("id", idv)] :: rest) =
        .ok ({ db := .str "Reactome", id := idv,
               url := "https://reactome.org/PathwayBrowser/#/" ++ pyStr idv } :: tl)) ∧
      (crossLinksFrom pid (.obj [("database", .str "GeneID"), ("id", idv)] :: rest) =
        .ok ({ db := .str "GeneID", id := idv,
               url := "https://www.ncbi.nlm.nih.gov/gene/" ++ pyStr idv } :: tl)) ∧
      (crossLinksFrom pid (.obj [("database", .str "Pfam"), ("id", idv)] :: rest) =
        .ok ({ db := .str "Pfam", id := idv,
               url := "https://pfam.xfam.org/protein/" ++ pyStr idv } :: tl)) := by
  intro pid idv rest tl hrest
  have hip : pyFormat "https://www.ebi.ac.uk/interpro/entry/UniProt/\x7bprotein_id\x7d"
      (pyStr idv) pid = "https://www.ebi.ac.uk/interpro/entry/UniProt/" ++ pid :=
    pyFormat_pid_template _ "https://www.ebi.ac.uk/interpro/entry/UniProt/" _ _
      (by decide) (by decide) (by decide)
  have hen : pyFormat "https://www.ensembl.org/Homo_sapiens/Gene/Summary?g=\x7bid\x7d"
      (pyStr idv) pid = "https://www.ensembl.org/Homo_sapiens/Gene/Summary?g=" ++ pyStr idv :=
    pyFormat_id_template _ "https://www.ensembl.org/Homo_sapiens/Gene/Summary?g=" _ _
      (by decide) (by decide) (by decide)
  have hke : pyFormat "https://www.genome.jp/dbget-bin/www_bget?hsa:\x7bid\x7d"
      (pyStr idv) pid = "https://www.genome.jp/dbget-bin/www_bget?hsa:" ++ pyStr idv :=
    pyFormat_id_template _ "https://www.genome.jp/dbget-bin/www_bget?hsa:" _ _
      (by decide) (by decide) (by decide)
  have hre : pyFormat "https://reactome.org/PathwayBrowser/#/\x7bid\x7d"
      (pyStr idv) pid = "https://reactome.org/PathwayBrowser/#/" ++ pyStr idv :=
    pyFormat_id_template _ "https://reactome.org/PathwayBrowser/#/" _ _
      (by decide) (by decide) (by decide)
  have hge : pyFormat "https://www.ncbi.nlm.nih.gov/gene/\x7bid\x7d"
      (pyStr idv) pid = "https://www.ncbi.nlm.nih.gov/gene/" ++ pyStr idv :=
    pyFormat_id_template _ "https://www.ncbi.nlm.nih.gov/gene/" _ _
      (by decide) (by decide) (by decide)
  have hpf : pyFormat "https://pfam.xfam.org/protein/\x7bid\x7d"
      (pyStr idv) pid = "https://pfam.xfam.org/protein/" ++ pyStr idv :=
    pyFormat_id_template _ "https://pfam.xfam.org/protein/" _ _
      (by decide) (by decide) (by decide)
  refine ⟨?_, ?_, ?_, ?_, ?_, ?_⟩ <;>
    simp [crossLinksFrom, dictGet, lookupJ, templateFor, url_templates,
      Bind.bind, Except.bind, hrest, hip, hen, hke, hre, hge, hpf]

/-- C5 witness: a KEGG cross-reference formats its id into the KEGG
template. -/
theorem cross_link_url_generation_witness :
    crossLinksFrom "P7" [.obj [("database", .str "KEGG"), ("id", .str "hsa123")]] =
      .ok [{ db := .str "KEGG", id := .str "hsa123",
             url := "https://www.genome.jp/dbget-bin/www_bget?hsa:" ++ pyStr (.str "hsa123") }] :=
  (cross_link_url_generation "P7" (.str "hsa123") [] [] rfl).2.2.1

/-- C6: gene-name ordering — the claim's own example
`[{name: A, synonyms: [S1, S2]}, {name: B, synonyms: []}]` yields
`[A, S1, S2, B]` through the overview extraction (first conjunct), and
gene entries contribute left to right: the output for a concatenation of
gene lists is the concatenation of their outputs (second conjunct). -/
theorem gene_names_order :
    ((overviewFrom (.obj [("genes", .arr
        [.obj [("geneName", .obj [("value", .str "A")]),
               ("synonyms", .arr [.obj [("value", .str "S1")], .obj [("value", .str "S2")]])],
         .obj [("geneName", .obj [("value", .str "B")]), ("synonyms", .arr [])]])])).map
        Overview.gene_names = .ok [.str "A", .str "S1", .str "S2", .str "B"]) ∧
    (∀ (gs1 gs2 l1 l2 : List JVal),
       geneNamesFrom gs1 = .ok l1 → geneNamesFrom gs2 = .ok l2 →
       geneNamesFrom (gs1 ++ gs2) = .ok (l1 ++ l2)) := by
  refine ⟨rfl, ?_⟩
  intro gs1
  induction gs1 with
  | nil =>
    intro gs2 l1 l2 h1 h2
    simp only [geneNamesFrom] at h1
    cases h1
    simpa using h2
  | cons g gs ih =>
    intro gs2 l1 l2 h1 h2
    rcases hO : geneOwn g with e | own
    · simp [geneNamesFrom, hO, Bind.bind, Except.bind] at h1
    rcases hS : dictGet g "synonyms" (.arr []) with e | synsRaw
    · simp [geneNamesFrom, hO, hS, Bind.bind, Except.bind] at h1
    rcases hI : pyIter synsRaw with e | syns
    · simp [geneNamesFrom, hO, hS, hI, Bind.bind, Except.bind] at h1
    rcases hT : geneNamesFrom gs with e | tl
    · simp [geneNamesFrom, hO, hS, hI, hT, Bind.bind, Except.bind] at h1
    simp [geneNamesFrom, hO, hS, hI, hT, Bind.bind, Except.bind] at h1
    subst h1
    simp [geneNamesFrom, hO, hS, hI, ih gs2 tl l2 hT h2, Bind.bind, Except.bind,
      List.append_assoc]

/-- C6 witness: the two example gene entries, split as a concatenation,
produce the concatenated name lists in order. -/
theorem gene_names_order_witness :
    geneNamesFrom
        ([.obj [("geneName", .obj [("value", .str "A")]),
                ("synonyms", .arr [.obj [("value", .str "S1")], .obj [("value", .str "S2")]])]] ++
         [.obj [("geneName", .obj [("value", .str "B")]), ("synonyms", .arr [])]]) =
      .ok ([.str "A", .str "S1", .str "S2"] ++ [.str "B"]) :=
  gene_names_order.2 _ _ _ _ rfl rfl

/-- C7 counterexample: an autocomplete result item whose
`proteinDescription` is an explicit `null` makes the whole autocomplete
operation raise (`None.get` has no defensive mapping check), so the claim
that the §4.1 defensive-access rule protects every intermediate level is
false. -/
theorem autocomplete_malformed_item_raises :
    (autocomplete (some "hb") (fun _ =>
      { status := 200,
        body := .obj [("results", .arr
          [.obj [("primaryAccession", .str "P1"), ("proteinDescription", JVal.null)]])],
        text := "" })).1 =
      .error "AttributeError: no attribute get for key recommendedName" := rfl

/-- C7 amended: the autocomplete item reduction uses plain `.get` chains
with defaults at every level of
`proteinDescription` → `recommendedName` → `fullName` → `value`: a key
absent at any level funnels through the empty-mapping default (and an
absent `value` through the empty string), so the reduction succeeds
(first conjunct, which partitions with the others by the chain values);
but a slot that holds a present non-mapping value — at the
`proteinDescription`, `recommendedName` or `fullName` level — makes the
reduction raise (remaining conjuncts), with no §4.1 mapping check
anywhere. -/
theorem autocomplete_items_chain_defaults_or_raises :
    ∀ fs : List (String × JVal),
      (∀ fs1 fs2 fs3,
         (lookupJ fs "proteinDescription").getD (.obj []) = .obj fs1 →
         (lookupJ fs1 "recommendedName").getD (.obj []) = .obj fs2 →
         (lookupJ fs2 "fullName").getD (.obj []) = .obj fs3 →
         autocompleteItems [.obj fs] =
           .ok [{ id := (lookupJ fs "primaryAccession").getD .null,
                  name := (lookupJ fs3 "value").getD (.str "") }]) ∧
      (isObj ((lookupJ fs "proteinDescription").getD (.obj [])) = false →
         ∃ e, autocompleteItems [.obj fs] = .error e) ∧
      (∀ fs1, (lookupJ fs "proteinDescription").getD (.obj []) = .obj fs1 →
         isObj ((lookupJ fs1 "recommendedName").getD (.obj [])) = false →
         ∃ e, autocompleteItems [.obj fs] = .error e) ∧
      (∀ fs1 fs2,
         (lookupJ fs "proteinDescription").getD (.obj []) = .obj fs1 →
         (lookupJ fs1 "recommendedName").getD (.obj []) = .obj fs2 →
         isObj ((lookupJ fs2 "fullName").getD (.obj [])) = false →
         ∃ e, autocompleteItems [.obj fs] = .error e) := by
  intro fs
  refine ⟨?_, ?_, ?_, ?_⟩
  · intro fs1 fs2 fs3 h1 h2 h3
    simp [autocompleteItems, dictGet, h1, h2, h3, Bind.bind, Except.bind]
  · intro hobj
    rcases hpd : (lookupJ fs "proteinDescription").getD (.obj [])
      with _ | b | n | s | xs | ofs
    · exact ⟨"AttributeError: no attribute get for key recommendedName",
        by simp [autocompleteItems, dictGet, hpd, Bind.bind, Except.bind]⟩
    · exact ⟨"AttributeError: no attribute get for key recommendedName",
        by simp [autocompleteItems, dictGet, hpd, Bind.bind, Except.bind]⟩
    · exact ⟨"AttributeError: no attribute get for key recommendedName",
        by simp [autocompleteItems, dictGet, hpd, Bind.bind, Except.bind]⟩
    · exact ⟨"AttributeError: no attribute get for key recommendedName",
        by simp [autocompleteItems, dictGet, hpd, Bind.bind, Except.bind]⟩
    · exact ⟨"AttributeError: no attribute get for key recommendedName",
        by simp [autocompleteItems, dictGet, hpd, Bind.bind, Except.bind]⟩
    · rw [hpd] at hobj; exact absurd hobj (by simp [isObj])
  · intro fs1 h1 hobj
    rcases hrn : (lookupJ fs1 "recommendedName").getD (.obj [])
      with _ | b | n | s | xs | ofs
    · exact ⟨"AttributeError: no attribute get for key fullName",
        by simp [autocompleteItems, dictGet, h1, hrn, Bind.bind, Except.bind]⟩
    · exact ⟨"AttributeError: no attribute get for key fullName",
        by simp [autocompleteItems, dictGet, h1, hrn, Bind.bind, Except.bind]⟩
    · exact ⟨"AttributeError: no attribute get for key fullName",
        by simp [autocompleteItems, dictGet, h1, hrn, Bind.bind, Except.bind]⟩
    · exact ⟨"AttributeError: no attribute get for key fullName",
        by simp [autocompleteItems, dictGet, h1, hrn, Bind.bind, Except.bind]⟩
    · exact ⟨"AttributeError: no attribute get for key fullName",
        by simp [autocompleteItems, dictGet, h1, hrn, Bind.bind, Except.bind]⟩
    · rw [hrn] at hobj; exact absurd hobj (by simp [isObj])
  · intro fs1 fs2 h1 h2 hobj
    rcases hfn : (lookupJ fs2 "fullName").getD (.obj [])
      with _ | b | n | s | xs | ofs
    · exact ⟨"AttributeError: no attribute get for key value",
        by simp [autocompleteItems, dictGet, h1, h2, hfn, Bind.bind, Except.bind]⟩
    · exact ⟨"AttributeError: no attribute get for key value",
        by simp [autocompleteItems, dictGet, h1, h2, hfn, Bind.bind, Except.bind]⟩
    · exact ⟨"AttributeError: no attribute get for key value",
        by simp [autocompleteItems, dictGet, h1, h2, hfn, Bind.bind, Except.bind]⟩
    · exact ⟨"AttributeError: no attribute get for key value",
        by simp [autocompleteItems, dictGet, h1, h2, hfn, Bind.bind, Except.bind]⟩
    · exact ⟨"AttributeError: no attribute get for key value",
        by simp [autocompleteItems, dictGet, h1, h2, hfn, Bind.bind, Except.bind]⟩
    · rw [hfn] at hobj; exact absurd hobj (by simp [isObj])

/-- C7 witness: absent keys at each level default (no key at all; absent
`fullName` under a present `recommendedName`; a full chain yields the
value), while a present null at each of the three object levels
errors. -/
theorem autocomplete_items_chain_defaults_or_raises_witness :
    (autocompleteItems [.obj [("primaryAccession", .str "P1")]] =
      .ok [{ id := .str "P1", name := .str "" }]) ∧
    (autocompleteItems [.obj [("proteinDescription",
        .obj [("recommendedName", .obj [])])]] =
      .ok [{ id := JVal.null, name := .str "" }]) ∧
    (autocompleteItems [.obj [("proteinDescription",
        .obj [("recommendedName", .obj [("fullName",
          .obj [("value", .str "Hb")])])])]] =
      .ok [{ id := JVal.null, name := .str "Hb" }]) ∧
    (∃ e, autocompleteItems [.obj [("proteinDescription", JVal.null)]] = .error e) ∧
    (∃ e, autocompleteItems [.obj [("proteinDescription",
        .obj [("recommendedName", JVal.null)])]] = .error e) ∧
    (∃ e, autocompleteItems [.obj [("proteinDescription",
        .obj [("recommendedName", .obj [("fullName", JVal.null)])])]] = .error e) :=
  ⟨(autocomplete_items_chain_defaults_or_raises _).1 [] [] [] rfl rfl rfl,
   (autocomplete_items_chain_defaults_or_raises _).1 [("recommendedName", .obj [])] [] [] rfl rfl rfl,
   (autocomplete_items_chain_defaults_or_raises _).1
     [("recommendedName", .obj [("fullName", .obj [("value", .str "Hb")])])]
     [("fullName", .obj [("value", .str "Hb")])] [("value", .str "Hb")] rfl rfl rfl,
   (autocomplete_items_chain_defaults_or_raises _).2.1 rfl,
   (autocomplete_items_chain_defaults_or_raises _).2.2.1 [("recommendedName", JVal.null)] rfl rfl,
   (autocomplete_items_chain_defaults_or_raises _).2.2.2
     [("recommendedName", .obj [("fullName", JVal.null)])] [("fullName", JVal.null)] rfl rfl rfl⟩

/-- C8: a missing or empty identifier yields the 400-class
`"No ID provided."` response and an empty outbound-request log — no
upstream call of any kind is made. -/
theorem search_missing_identifier :
    ∀ fetch : String → HttpResp,
      search none fetch = (.badRequest "No ID provided.", []) ∧
      search (some "") fetch = (.badRequest "No ID provided.", []) ∧
      (SearchOutcome.badRequest "No ID provided.").statusCode = 400 :=
  fun _ => ⟨rfl, rfl, rfl⟩

/-- C9: when the upstream search response is non-success, autocomplete
returns the empty list successfully (no error), after its single search
request. -/
theorem autocomplete_upstream_failure_empty :
    ∀ (q : Option String) (fetch : String → HttpResp),
      (fetch (autocompleteUrl (q.getD ""))).status ≠ 200 →
      autocomplete q fetch = (.ok [], [autocompleteUrl (q.getD "")]) := by
  intro q fetch h
  simp only [autocomplete]
  rw [if_neg h]
  rfl

/-- C9 witness: a 500 oracle makes autocomplete answer the empty list. -/
theorem autocomplete_upstream_failure_empty_witness :
    autocomplete (some "hemo") (fun _ => { status := 500, body := .obj [], text := "" }) =
      (.ok [], [autocompleteUrl "hemo"]) :=
  autocomplete_upstream_failure_empty (some "hemo") _ (by decide)

/-- C10: a `PDB` cross-reference without an `id` key aborts the PDB-id
collection (raw `xref['id']` indexing) and with it the whole extraction
(third conjunct evaluates a concrete record to `KeyError: id`), whereas
an allow-listed cross-link entry without `id` is still emitted, with a
null id, because the cross-link path reads `id` defensively (second and
fourth conjuncts). -/
theorem pdb_id_indexing_vs_crosslink_defaults :
    (∀ (fs : List (String × JVal)) (rest : List JVal),
       lookupJ fs "database" = some (.str "PDB") →
       lookupJ fs "id" = none →
       ∃ e, pdbIdsFrom (.obj fs :: rest) = .error e) ∧
    (∀ (pid : String) (fs : List (String × JVal)) (db : JVal) (t : String)
        (rest : List JVal) (tl : List CrossLink),
       lookupJ fs "database" = some db →
       templateFor db = some t →
       lookupJ fs "id" = none →
       crossLinksFrom pid rest = .ok tl →
       ∃ u, crossLinksFrom pid (.obj fs :: rest) =
         .ok ({ db := db, id := JVal.null, url := u } :: tl)) ∧
    ((searchExtract "P1" c10Record fetchStub).1 = .error "KeyError: id") ∧
    (crossLinksFrom "P1" [.obj [("database", .str "Ensembl")]] =
      .ok [{ db := .str "Ensembl", id := JVal.null,
             url := "https://www.ensembl.org/Homo_sapiens/Gene/Summary?g=None" }]) := by
  refine ⟨?_, ?_, rfl, rfl⟩
  · intro fs rest hdb hid
    refine ⟨"KeyError: id", ?_⟩
    simp [pdbIdsFrom, dictGet, hdb, jStrEq, jIndex, hid, Bind.bind, Except.bind]
  · intro pid fs db t rest tl hdb ht hid hrest
    refine ⟨pyFormat t (pyStr JVal.null) pid, ?_⟩
    simp [crossLinksFrom, dictGet, hdb, hid, ht, hrest, Bind.bind, Except.bind]

/-- C10 witness: a PDB entry without id errors; a Pfam entry without id
is emitted with a null id ahead of the following entries. -/
theorem pdb_id_indexing_vs_crosslink_defaults_witness :
    (∃ e, pdbIdsFrom [.obj [("database", .str "PDB")]] = .error e) ∧
    (∃ u, crossLinksFrom "P1" [.obj [("database", .str "Pfam")], .obj []] =
       .ok [{ db := .str "Pfam", id := JVal.null, url := u }]) :=
  ⟨pdb_id_indexing_vs_crosslink_defaults.1 [("database", .str "PDB")] [] rfl rfl,
   pdb_id_indexing_vs_crosslink_defaults.2.1 "P1" [("database", .str "Pfam")]
     (.str "Pfam") _ [.obj []] [] rfl rfl rfl rfl⟩

end BioAPI
